import Mathlib

/-!
# Verification of the WasmEdge component-model type-section loader

Shallow embedding of `src/lib/loader/ast/comptype.cpp` (namespace
`WasmEdge::Loader`): the decoder for component-model type definitions.

The byte-cursor primitives (`FMgr.readByte`, `FMgr.readU32`,
`FMgr.readName`), the generic vector/option decoders (`loadVec`,
`loadOption`) and a few collaborator decoders (`loadAlias`, `loadDesc`,
core `FunctionType` loading) live outside the translated file; those are
modelled from the specification and marked as such in their doc comments.
Everything else is a direct translation of the source functions.

Streams are lists of bytes (as `Nat`), and every decode step returns the
decoded value (or a typed error) together with the stream that remains
after the call, mirroring the mutable `FMgr` cursor of the source.
-/

namespace WasmEdge.Loader

/-- Error codes observable from this decoder.  The `Malformed*` values
translate `ErrCode::Value::*` constants used in the source; the stream
errors (`UnexpectedEnd`, `UnexpectedByte`, `IntegerTooLong`,
`IntegerTooLarge`) model the opaque ByteStream-level errors that the
spec says are propagated unchanged.  `NullDereference` marks the
undefined behaviour of dereferencing a default-constructed (null)
`std::shared_ptr` before it is allocated. -/
inductive Err where
  | MalformedRecordType
  | MalformedVariantType
  | MalformedTupleType
  | MalformedFlagsType
  | MalformedDefType
  | UnexpectedEnd
  | UnexpectedByte
  | IntegerTooLong
  | IntegerTooLarge
  | NullDereference
  deriving DecidableEq, Repr

/-- The byte stream: the bytes that remain in front of the cursor. -/
abbrev Stream := List Nat

/-- Result of one decode call: the decoded value or an error, together
with the stream left behind the cursor after the call. -/
abbrev DecRes (α : Type) := Except Err α × Stream

/-- Modelled from the spec: the ByteStream single-byte read.  Succeeds
and consumes one byte, or fails at end of input. -/
def readByte (bs : Stream) : DecRes Nat :=
  match bs with
  | [] => (.error .UnexpectedEnd, [])
  | b :: rest => (.ok b, rest)

/-- Modelled from the spec: the ByteStream expected-byte assertion
(`FMgr.readByte(expect)`).  The spec leaves the cursor undefined after a
failed read; it is modelled as not consuming on a mismatch, which is the
behaviour the component-declaration decoder relies on when it falls back
to the instance-declaration decoder on the same tag byte. -/
def readByteExpect (e : Nat) (bs : Stream) : DecRes Unit :=
  match bs with
  | [] => (.error .UnexpectedEnd, [])
  | b :: rest => if b = e then (.ok (), rest) else (.error .UnexpectedByte, b :: rest)

/-- Modelled from the spec: LEB128 accumulation loop for `readU32`, with
a budget of at most 5 bytes and a 32-bit range check. -/
def readU32Loop : Nat → Nat → Nat → Stream → DecRes Nat
  | 0, _, _, bs => (.error .IntegerTooLong, bs)
  | _ + 1, _, _, [] => (.error .UnexpectedEnd, [])
  | fuel + 1, shift, acc, b :: rest =>
    if b < 128 then
      if acc + b % 128 * 2 ^ shift < 2 ^ 32 then (.ok (acc + b % 128 * 2 ^ shift), rest)
      else (.error .IntegerTooLarge, rest)
    else readU32Loop fuel (shift + 7) (acc + b % 128 * 2 ^ shift) rest

/-- Modelled from the spec: the ByteStream unsigned-varint read
(`FMgr.readU32`), an unsigned LEB128 integer of at most 5 bytes whose
value must fit in 32 bits. -/
def readU32 (bs : Stream) : DecRes Nat :=
  readU32Loop 5 0 0 bs

/-- Take exactly `n` bytes from the stream. -/
def takeExact : Nat → Stream → DecRes (List Nat)
  | 0, bs => (.ok [], bs)
  | _ + 1, [] => (.error .UnexpectedEnd, [])
  | n + 1, b :: rest =>
    match takeExact n rest with
    | (.ok xs, bs2) => (.ok (b :: xs), bs2)
    | (.error e, bs2) => (.error e, bs2)

/-- Modelled from the spec: the ByteStream length-prefixed string read
(`FMgr.readName`): an unsigned length followed by that many bytes.
Names are kept as raw byte lists; UTF-8 validation is not modelled. -/
def readName (bs : Stream) : DecRes (List Nat) :=
  match readU32 bs with
  | (.error e, bs1) => (.error e, bs1)
  | (.ok n, bs1) => takeExact n bs1

/-- A decoded name: its raw bytes. -/
abbrev Name := List Nat

/-- The 13 primitive value types (`AST::PrimValType`). -/
inductive PrimValType where
  | Bool | S8 | U8 | S16 | U16 | S32 | U32 | S64 | U64
  | Float32 | Float64 | Char | String
  deriving DecidableEq, Repr

/-- A value type: inline primitive or index of a previous definition. -/
inductive ValueType where
  | primitive (p : PrimValType)
  | typeIndex (i : Nat)
  deriving DecidableEq, Repr

/-- A labelled value type (`AST::LabelValType`). -/
structure LabelValType where
  label : Name
  valType : ValueType
  deriving DecidableEq, Repr

/-- A record type (`AST::Record`): its field list. -/
structure Record where
  labelTypes : List LabelValType
  deriving DecidableEq, Repr

/-- A variant case (`AST::Case`): label and optional payload type. -/
structure Case where
  label : Name
  valType : Option ValueType
  deriving DecidableEq, Repr

/-- A variant type (`AST::VariantTy`): its cases. -/
structure VariantTy where
  cases : List Case
  deriving DecidableEq, Repr

/-- A list type (`AST::List`): its element type. -/
structure ListTy where
  valType : ValueType
  deriving DecidableEq, Repr

/-- A tuple type (`AST::Tuple`): its member types. -/
structure Tuple where
  types : List ValueType
  deriving DecidableEq, Repr

/-- A flags type (`AST::Flags`): its labels. -/
structure Flags where
  labels : List Name
  deriving DecidableEq, Repr

/-- An enum type (`AST::Enum`): its labels. -/
structure Enum where
  labels : List Name
  deriving DecidableEq, Repr

/-- An option type (`AST::Option`): its element type. -/
structure OptionTy where
  valType : ValueType
  deriving DecidableEq, Repr

/-- A result type (`AST::Result`): optional ok and error types. -/
structure ResultTy where
  valType : Option ValueType
  errorType : Option ValueType
  deriving DecidableEq, Repr

/-- An own handle (`AST::Own`): its resource type index. -/
structure Own where
  index : Nat
  deriving DecidableEq, Repr

/-- A borrow handle (`AST::Borrow`): its resource type index. -/
structure Borrow where
  index : Nat
  deriving DecidableEq, Repr

/-- A function result list (`AST::ResultList`): a single value type or a
named vector of labelled value types. -/
inductive ResultList where
  | single (v : ValueType)
  | named (rs : List LabelValType)
  deriving DecidableEq, Repr

/-- A component function type (`AST::FuncType`). -/
structure FuncType where
  paramList : List LabelValType
  resultList : ResultList
  deriving DecidableEq, Repr

/-- A defined value type (`AST::DefValType`): the 11-way variant. -/
inductive DefValType where
  | prim (p : PrimValType)
  | record (r : Record)
  | variant (v : VariantTy)
  | list (l : ListTy)
  | tuple (t : Tuple)
  | flags (f : Flags)
  | enum (e : Enum)
  | option (o : OptionTy)
  | result (r : ResultTy)
  | own (o : Own)
  | borrow (b : Borrow)
  deriving DecidableEq, Repr

/-- An extern descriptor (`AST::ExternDesc`): currently a bare index
behind two fixed prefix bytes. -/
abbrev ExternDesc := Nat

/-- Modelled from the spec: the Alias declaration is an external
collaborator whose byte grammar the spec leaves out of scope; it is
modelled as a sort byte and an unsigned target index. -/
structure Alias where
  sort : Nat
  target : Nat
  deriving DecidableEq, Repr

/-- An import declaration (`AST::ImportDecl`). -/
structure ImportDecl where
  importName : Name
  externDesc : ExternDesc
  deriving DecidableEq, Repr

/-- An export declaration (`AST::ExportDecl`). -/
structure ExportDecl where
  exportName : Name
  externDesc : ExternDesc
  deriving DecidableEq, Repr

mutual
/-- A definition type (`AST::DefType`): the 4-way variant. -/
inductive DefType where
  | defValType (v : DefValType)
  | funcType (f : FuncType)
  | componentType (c : ComponentType)
  | instanceType (i : InstanceType)

/-- A component type (`AST::ComponentType`): its declarations. -/
inductive ComponentType where
  | mk (content : List ComponentDecl)

/-- An instance type (`AST::InstanceType`): its declarations. -/
inductive InstanceType where
  | mk (content : List InstanceDecl)

/-- A component declaration (`AST::ComponentDecl`). -/
inductive ComponentDecl where
  | importDecl (d : ImportDecl)
  | instanceDecl (d : InstanceDecl)

/-- An instance declaration (`AST::InstanceDecl`): a shared type
definition, an alias, or an export declaration. -/
inductive InstanceDecl where
  | sharedType (t : DefType)
  | aliasDecl (a : Alias)
  | exportDecl (e : ExportDecl)
end

/-- Modelled from the spec: a core import descriptor (external
collaborator format), modelled as a tag byte and an unsigned index. -/
structure ImportDesc where
  tag : Nat
  index : Nat
  deriving DecidableEq, Repr

/-- A core export declaration (`AST::CoreExportDecl`). -/
structure CoreExportDecl where
  name : Name
  importDesc : ImportDesc
  deriving DecidableEq, Repr

/-- Modelled from the spec: a core function type (external collaborator),
as a parameter byte vector and a result byte vector. -/
structure FunctionType where
  params : List Nat
  results : List Nat
  deriving DecidableEq, Repr

mutual
/-- A core definition type (`AST::CoreDefType`): core function type or
module type. -/
inductive CoreDefType where
  | functionType (f : FunctionType)
  | moduleType (m : ModuleType)

/-- A core type (`AST::CoreType`): wraps a core definition type. -/
inductive CoreType where
  | mk (type : CoreDefType)

/-- A module type (`AST::ModuleType`): its declarations. -/
inductive ModuleType where
  | mk (content : List ModuleDecl)

/-- A module declaration (`AST::ModuleDecl`). -/
inductive ModuleDecl where
  | importDesc (d : ImportDesc)
  | coreType (t : CoreType)
  | aliasDecl (a : Alias)
  | coreExport (e : CoreExportDecl)
end

/-- Modelled from the spec: the generic Vector Decoder body — decode
`n` elements in encounter order, failing fast on the first element
failure and propagating that error unchanged. -/
def loadVecN {α : Type} (load : Stream → DecRes α) : Nat → Stream → DecRes (List α)
  | 0, bs => (.ok [], bs)
  | n + 1, bs =>
    match load bs with
    | (.error e, bs1) => (.error e, bs1)
    | (.ok x, bs1) =>
      match loadVecN load n bs1 with
      | (.error e, bs2) => (.error e, bs2)
      | (.ok xs, bs2) => (.ok (x :: xs), bs2)

/-- Modelled from the spec: the generic Vector Decoder (`loadVec`) — an
unsigned count followed by that many elements, collected in encounter
order. -/
def loadVec {α : Type} (load : Stream → DecRes α) (bs : Stream) : DecRes (List α) :=
  match readU32 bs with
  | (.error e, bs1) => (.error e, bs1)
  | (.ok n, bs1) => loadVecN load n bs1

/-- Modelled from the spec: the generic option decode (`loadOption`) — a
presence flag byte, `0x00` for absent and `0x01` for present followed by
the element; any other flag is rejected. -/
def loadOption {α : Type} (load : Stream → DecRes α) (bs : Stream) : DecRes (Option α) :=
  match readByte bs with
  | (.error e, bs1) => (.error e, bs1)
  | (.ok t, bs1) =>
    if t = 0x00 then (.ok none, bs1)
    else if t = 0x01 then
      match load bs1 with
      | (.error e, bs2) => (.error e, bs2)
      | (.ok x, bs2) => (.ok (some x), bs2)
    else (.error .MalformedDefType, bs1)

/-- `Loader::loadLabel`: a declared length, then a length-prefixed name;
any read failure or a length mismatch yields `MalformedRecordType`. -/
def loadLabel (bs : Stream) : DecRes Name :=
  match readU32 bs with
  | (.error _, bs1) => (.error .MalformedRecordType, bs1)
  | (.ok len, bs1) =>
    match readName bs1 with
    | (.error _, bs2) => (.error .MalformedRecordType, bs2)
    | (.ok l, bs2) =>
      if l.length = len then (.ok l, bs2)
      else (.error .MalformedRecordType, bs2)

/-- `Loader::loadType(Byte, PrimValType&)`: the tag-to-primitive table,
defined on exactly the 13 primitive tags 0x73–0x7f. -/
def primValTypeOfTag (tag : Nat) : Option PrimValType :=
  if tag = 0x7f then some .Bool
  else if tag = 0x7e then some .S8
  else if tag = 0x7d then some .U8
  else if tag = 0x7c then some .S16
  else if tag = 0x7b then some .U16
  else if tag = 0x7a then some .S32
  else if tag = 0x79 then some .U32
  else if tag = 0x78 then some .S64
  else if tag = 0x77 then some .U64
  else if tag = 0x76 then some .Float32
  else if tag = 0x75 then some .Float64
  else if tag = 0x74 then some .Char
  else if tag = 0x73 then some .String
  else none

/-- `Loader::loadType(ValueType&)`: one tag byte; 0x73–0x7f decodes a
primitive, any other tag is an inline type index. -/
def loadValueType (bs : Stream) : DecRes ValueType :=
  match readByte bs with
  | (.error e, bs1) => (.error e, bs1)
  | (.ok tag, bs1) =>
    match primValTypeOfTag tag with
    | some p => (.ok (.primitive p), bs1)
    | none => (.ok (.typeIndex tag), bs1)

/-- `Loader::loadType(LabelValType&)`: a label, then a value type. -/
def loadLabelValType (bs : Stream) : DecRes LabelValType :=
  match loadLabel bs with
  | (.error e, bs1) => (.error e, bs1)
  | (.ok l, bs1) =>
    match loadValueType bs1 with
    | (.error e, bs2) => (.error e, bs2)
    | (.ok v, bs2) => (.ok ⟨l, v⟩, bs2)

/-- `Loader::loadType(Record&)`: a vector of labelled value types; a
successfully decoded but empty vector is `MalformedRecordType`. -/
def loadRecord (bs : Stream) : DecRes Record :=
  match loadVec loadLabelValType bs with
  | (.error e, bs1) => (.error e, bs1)
  | (.ok lts, bs1) =>
    if lts.length > 0 then (.ok ⟨lts⟩, bs1)
    else (.error .MalformedRecordType, bs1)

/-- `Loader::loadCase`: a label, an optional value type, then a varint
terminator that must decode to `0x00`; a nonzero terminator is
`MalformedVariantType`. -/
def loadCase (bs : Stream) : DecRes Case :=
  match loadLabel bs with
  | (.error e, bs1) => (.error e, bs1)
  | (.ok l, bs1) =>
    match loadOption loadValueType bs1 with
    | (.error e, bs2) => (.error e, bs2)
    | (.ok ov, bs2) =>
      match readU32 bs2 with
      | (.error e, bs3) => (.error e, bs3)
      | (.ok v, bs3) =>
        if v ≠ 0x00 then (.error .MalformedVariantType, bs3)
        else (.ok ⟨l, ov⟩, bs3)

/-- `Loader::loadType(VariantTy&)`: a vector of cases, no emptiness
check. -/
def loadVariantTy (bs : Stream) : DecRes VariantTy :=
  match loadVec loadCase bs with
  | (.error e, bs1) => (.error e, bs1)
  | (.ok cs, bs1) => (.ok ⟨cs⟩, bs1)

/-- `Loader::loadType(List&)`: the element value type. -/
def loadListTy (bs : Stream) : DecRes ListTy :=
  match loadValueType bs with
  | (.error e, bs1) => (.error e, bs1)
  | (.ok v, bs1) => (.ok ⟨v⟩, bs1)

/-- `Loader::loadType(Tuple&)`: a vector of value types; an empty result
is `MalformedTupleType`. -/
def loadTuple (bs : Stream) : DecRes Tuple :=
  match loadVec loadValueType bs with
  | (.error e, bs1) => (.error e, bs1)
  | (.ok ts, bs1) =>
    if ts.length = 0 then (.error .MalformedTupleType, bs1)
    else (.ok ⟨ts⟩, bs1)

/-- `Loader::loadType(Flags&)`: a vector of labels; an empty result is
`MalformedFlagsType`. -/
def loadFlags (bs : Stream) : DecRes Flags :=
  match loadVec loadLabel bs with
  | (.error e, bs1) => (.error e, bs1)
  | (.ok ls, bs1) =>
    if ls.length = 0 then (.error .MalformedFlagsType, bs1)
    else (.ok ⟨ls⟩, bs1)

/-- `Loader::loadType(Enum&)`: a vector of labels, empty permitted. -/
def loadEnum (bs : Stream) : DecRes Enum :=
  match loadVec loadLabel bs with
  | (.error e, bs1) => (.error e, bs1)
  | (.ok ls, bs1) => (.ok ⟨ls⟩, bs1)

/-- `Loader::loadType(Option&)`: the element value type. -/
def loadOptionTy (bs : Stream) : DecRes OptionTy :=
  match loadValueType bs with
  | (.error e, bs1) => (.error e, bs1)
  | (.ok v, bs1) => (.ok ⟨v⟩, bs1)

/-- `Loader::loadType(Result&)`: two optional value types in order, the
ok type then the error type. -/
def loadResultTy (bs : Stream) : DecRes ResultTy :=
  match loadOption loadValueType bs with
  | (.error e, bs1) => (.error e, bs1)
  | (.ok ov, bs1) =>
    match loadOption loadValueType bs1 with
    | (.error e, bs2) => (.error e, bs2)
    | (.ok oe, bs2) => (.ok ⟨ov, oe⟩, bs2)

/-- `Loader::loadType(Own&)`: an unsigned resource type index. -/
def loadOwn (bs : Stream) : DecRes Own :=
  match readU32 bs with
  | (.error e, bs1) => (.error e, bs1)
  | (.ok i, bs1) => (.ok ⟨i⟩, bs1)

/-- `Loader::loadType(Borrow&)`: an unsigned resource type index. -/
def loadBorrow (bs : Stream) : DecRes Borrow :=
  match readU32 bs with
  | (.error e, bs1) => (.error e, bs1)
  | (.ok i, bs1) => (.ok ⟨i⟩, bs1)

/-- `Loader::loadImportExportName`: a name read, propagating the stream
error on failure. -/
def loadImportExportName (bs : Stream) : DecRes Name :=
  readName bs

/-- `Loader::loadExternDesc`: two fixed prefix bytes `0x00`, `0x11`,
then an unsigned index. -/
def loadExternDesc (bs : Stream) : DecRes ExternDesc :=
  match readByteExpect 0x00 bs with
  | (.error e, bs1) => (.error e, bs1)
  | (.ok _, bs1) =>
    match readByteExpect 0x11 bs1 with
    | (.error e, bs2) => (.error e, bs2)
    | (.ok _, bs2) =>
      match readU32 bs2 with
      | (.error e, bs3) => (.error e, bs3)
      | (.ok idx, bs3) => (.ok idx, bs3)

/-- Modelled from the spec: `Loader::loadAlias` is an external
collaborator (alias-resolution is out of the spec's scope); modelled as
a sort byte followed by an unsigned target index. -/
def loadAlias (bs : Stream) : DecRes Alias :=
  match readByte bs with
  | (.error e, bs1) => (.error e, bs1)
  | (.ok s, bs1) =>
    match readU32 bs1 with
    | (.error e, bs2) => (.error e, bs2)
    | (.ok t, bs2) => (.ok ⟨s, t⟩, bs2)

/-- Modelled from the spec: `Loader::loadDesc` decodes a core import
descriptor (external collaborator format); modelled as a tag byte
followed by an unsigned index. -/
def loadDesc (bs : Stream) : DecRes ImportDesc :=
  match readByte bs with
  | (.error e, bs1) => (.error e, bs1)
  | (.ok t, bs1) =>
    match readU32 bs1 with
    | (.error e, bs2) => (.error e, bs2)
    | (.ok i, bs2) => (.ok ⟨t, i⟩, bs2)

/-- `Loader::loadImportDecl`: an import name, then an extern
descriptor. -/
def loadImportDecl (bs : Stream) : DecRes ImportDecl :=
  match loadImportExportName bs with
  | (.error e, bs1) => (.error e, bs1)
  | (.ok n, bs1) =>
    match loadExternDesc bs1 with
    | (.error e, bs2) => (.error e, bs2)
    | (.ok d, bs2) => (.ok ⟨n, d⟩, bs2)

/-- `Loader::loadInstanceDecl`: a discriminant byte.  `0x00` (inline
core type) is unsupported and fails with `MalformedDefType`; `0x01`
dereferences a default-constructed null `std::shared_ptr<Type>` before
the nested type is decoded (`T->getType()` on a null handle), modelled
as an immediate `NullDereference`; `0x02` decodes an alias; `0x04`
decodes an export declaration; anything else is `MalformedDefType`. -/
def loadInstanceDecl (bs : Stream) : DecRes InstanceDecl :=
  match readByte bs with
  | (.error e, bs1) => (.error e, bs1)
  | (.ok t, bs1) =>
    if t = 0x00 then (.error .MalformedDefType, bs1)
    else if t = 0x01 then (.error .NullDereference, bs1)
    else if t = 0x02 then
      match loadAlias bs1 with
      | (.error e, bs2) => (.error e, bs2)
      | (.ok a, bs2) => (.ok (.aliasDecl a), bs2)
    else if t = 0x04 then
      match loadImportExportName bs1 with
      | (.error e, bs2) => (.error e, bs2)
      | (.ok n, bs2) =>
        match loadExternDesc bs2 with
        | (.error e, bs3) => (.error e, bs3)
        | (.ok d, bs3) => (.ok (.exportDecl ⟨n, d⟩), bs3)
    else (.error .MalformedDefType, bs1)

/-- `Loader::loadComponentDecl`: an expected `0x03` tag selects an
ImportDecl; otherwise the same position is decoded as an instance
declaration. -/
def loadComponentDecl (bs : Stream) : DecRes ComponentDecl :=
  match readByteExpect 0x03 bs with
  | (.ok _, bs1) =>
    match loadImportDecl bs1 with
    | (.error e, bs2) => (.error e, bs2)
    | (.ok d, bs2) => (.ok (.importDecl d), bs2)
  | (.error _, bs1) =>
    match loadInstanceDecl bs1 with
    | (.error e, bs2) => (.error e, bs2)
    | (.ok d, bs2) => (.ok (.instanceDecl d), bs2)

/-- `Loader::loadType(ComponentType&)`: a vector of component
declarations. -/
def loadComponentType (bs : Stream) : DecRes ComponentType :=
  match loadVec loadComponentDecl bs with
  | (.error e, bs1) => (.error e, bs1)
  | (.ok ds, bs1) => (.ok (.mk ds), bs1)

/-- `Loader::loadType(InstanceType&)`: a vector of instance
declarations. -/
def loadInstanceType (bs : Stream) : DecRes InstanceType :=
  match loadVec loadInstanceDecl bs with
  | (.error e, bs1) => (.error e, bs1)
  | (.ok ds, bs1) => (.ok (.mk ds), bs1)

/-- `Loader::loadType(ResultList&)`: discriminant `0x00` is a single
value type, `0x01` a named vector of labelled value types, anything else
`MalformedDefType`. -/
def loadResultList (bs : Stream) : DecRes ResultList :=
  match readByte bs with
  | (.error e, bs1) => (.error e, bs1)
  | (.ok t, bs1) =>
    if t = 0x00 then
      match loadValueType bs1 with
      | (.error e, bs2) => (.error e, bs2)
      | (.ok v, bs2) => (.ok (.single v), bs2)
    else if t = 0x01 then
      match loadVec loadLabelValType bs1 with
      | (.error e, bs2) => (.error e, bs2)
      | (.ok rs, bs2) => (.ok (.named rs), bs2)
    else (.error .MalformedDefType, bs1)

/-- `Loader::loadType(FuncType&)`: a vector of labelled value types as
the parameter list, then a result list. -/
def loadFuncType (bs : Stream) : DecRes FuncType :=
  match loadVec loadLabelValType bs with
  | (.error e, bs1) => (.error e, bs1)
  | (.ok ps, bs1) =>
    match loadResultList bs1 with
    | (.error e, bs2) => (.error e, bs2)
    | (.ok rl, bs2) => (.ok ⟨ps, rl⟩, bs2)

/-- `Loader::loadType(DefType&)`: the central dispatcher.  One tag byte:
0x73–0x7f primitive, 0x72 record, 0x71 variant, 0x70 list, 0x6f tuple,
0x6e flags, 0x6d enum, 0x6b option, 0x6a result, 0x69 own, 0x68 borrow,
0x40 function type, 0x41 component type, 0x42 instance type; anything
else `MalformedDefType`. -/
def loadDefType (bs : Stream) : DecRes DefType :=
  match readByte bs with
  | (.error e, bs1) => (.error e, bs1)
  | (.ok tag, bs1) =>
    match primValTypeOfTag tag with
    | some p => (.ok (.defValType (.prim p)), bs1)
    | none =>
      if tag = 0x72 then
        match loadRecord bs1 with
        | (.error e, bs2) => (.error e, bs2)
        | (.ok r, bs2) => (.ok (.defValType (.record r)), bs2)
      else if tag = 0x71 then
        match loadVariantTy bs1 with
        | (.error e, bs2) => (.error e, bs2)
        | (.ok v, bs2) => (.ok (.defValType (.variant v)), bs2)
      else if tag = 0x70 then
        match loadListTy bs1 with
        | (.error e, bs2) => (.error e, bs2)
        | (.ok v, bs2) => (.ok (.defValType (.list v)), bs2)
      else if tag = 0x6f then
        match loadTuple bs1 with
        | (.error e, bs2) => (.error e, bs2)
        | (.ok v, bs2) => (.ok (.defValType (.tuple v)), bs2)
      else if tag = 0x6e then
        match loadFlags bs1 with
        | (.error e, bs2) => (.error e, bs2)
        | (.ok v, bs2) => (.ok (.defValType (.flags v)), bs2)
      else if tag = 0x6d then
        match loadEnum bs1 with
        | (.error e, bs2) => (.error e, bs2)
        | (.ok v, bs2) => (.ok (.defValType (.enum v)), bs2)
      else if tag = 0x6b then
        match loadOptionTy bs1 with
        | (.error e, bs2) => (.error e, bs2)
        | (.ok v, bs2) => (.ok (.defValType (.option v)), bs2)
      else if tag = 0x6a then
        match loadResultTy bs1 with
        | (.error e, bs2) => (.error e, bs2)
        | (.ok v, bs2) => (.ok (.defValType (.result v)), bs2)
      else if tag = 0x69 then
        match loadOwn bs1 with
        | (.error e, bs2) => (.error e, bs2)
        | (.ok v, bs2) => (.ok (.defValType (.own v)), bs2)
      else if tag = 0x68 then
        match loadBorrow bs1 with
        | (.error e, bs2) => (.error e, bs2)
        | (.ok v, bs2) => (.ok (.defValType (.borrow v)), bs2)
      else if tag = 0x40 then
        match loadFuncType bs1 with
        | (.error e, bs2) => (.error e, bs2)
        | (.ok f, bs2) => (.ok (.funcType f), bs2)
      else if tag = 0x41 then
        match loadComponentType bs1 with
        | (.error e, bs2) => (.error e, bs2)
        | (.ok c, bs2) => (.ok (.componentType c), bs2)
      else if tag = 0x42 then
        match loadInstanceType bs1 with
        | (.error e, bs2) => (.error e, bs2)
        | (.ok i, bs2) => (.ok (.instanceType i), bs2)
      else (.error .MalformedDefType, bs1)

/-- Modelled from the spec: the core function type loader (external
collaborator); modelled per the core format as an expected `0x60` marker
followed by a parameter byte vector and a result byte vector. -/
def loadFunctionType (bs : Stream) : DecRes FunctionType :=
  match readByteExpect 0x60 bs with
  | (.error e, bs1) => (.error e, bs1)
  | (.ok _, bs1) =>
    match loadVec readByte bs1 with
    | (.error e, bs2) => (.error e, bs2)
    | (.ok ps, bs2) =>
      match loadVec readByte bs2 with
      | (.error e, bs3) => (.error e, bs3)
      | (.ok rs, bs3) => (.ok ⟨ps, rs⟩, bs3)

/-- `Loader::loadExportDecl`: a name (whose stream error is propagated
by kind), then a core import descriptor. -/
def loadExportDecl (bs : Stream) : DecRes CoreExportDecl :=
  match loadImportExportName bs with
  | (.error e, bs1) => (.error e, bs1)
  | (.ok n, bs1) =>
    match loadDesc bs1 with
    | (.error e, bs2) => (.error e, bs2)
    | (.ok d, bs2) => (.ok ⟨n, d⟩, bs2)

/-- `Loader::loadModuleDecl`: a discriminant byte.  `0x00` decodes a
core import descriptor; `0x01` dereferences a default-constructed null
`std::shared_ptr<CoreType>` before decoding (`emplace(...)->getType()`
on a null handle), modelled as an immediate `NullDereference`; `0x02`
decodes an alias; `0x03` a core export declaration.  The default branch
reads the error of an already-successful result in the source
(`RTag.error()` after `RTag` succeeded); it is modelled as the stream's
byte error. -/
def loadModuleDecl (bs : Stream) : DecRes ModuleDecl :=
  match readByte bs with
  | (.error e, bs1) => (.error e, bs1)
  | (.ok t, bs1) =>
    if t = 0x00 then
      match loadDesc bs1 with
      | (.error e, bs2) => (.error e, bs2)
      | (.ok d, bs2) => (.ok (.importDesc d), bs2)
    else if t = 0x01 then (.error .NullDereference, bs1)
    else if t = 0x02 then
      match loadAlias bs1 with
      | (.error e, bs2) => (.error e, bs2)
      | (.ok a, bs2) => (.ok (.aliasDecl a), bs2)
    else if t = 0x03 then
      match loadExportDecl bs1 with
      | (.error e, bs2) => (.error e, bs2)
      | (.ok d, bs2) => (.ok (.coreExport d), bs2)
    else (.error .UnexpectedByte, bs1)

/-- `Loader::loadType(ModuleType&)`: an expected `0x50` marker byte
(whose stream error is propagated by kind), then a vector of module
declarations. -/
def loadModuleType (bs : Stream) : DecRes ModuleType :=
  match readByteExpect 0x50 bs with
  | (.error e, bs1) => (.error e, bs1)
  | (.ok _, bs1) =>
    match loadVec loadModuleDecl bs1 with
    | (.error e, bs2) => (.error e, bs2)
    | (.ok ds, bs2) => (.ok (.mk ds), bs2)

/-- `Loader::loadType(CoreDefType&)`: attempt a core function type; on
failure, attempt a module type from the position the failed attempt
stopped at (the cursor is not rewound), and on failure return the module
attempt's error. -/
def loadCoreDefType (bs : Stream) : DecRes CoreDefType :=
  match loadFunctionType bs with
  | (.ok f, bs1) => (.ok (.functionType f), bs1)
  | (.error _, bs1) =>
    match loadModuleType bs1 with
    | (.ok m, bs2) => (.ok (.moduleType m), bs2)
    | (.error e, bs2) => (.error e, bs2)

/-- `Loader::loadType(CoreType&)`: the wrapped core definition type. -/
def loadCoreType (bs : Stream) : DecRes CoreType :=
  match loadCoreDefType bs with
  | (.error e, bs1) => (.error e, bs1)
  | (.ok t, bs1) => (.ok (.mk t), bs1)

/-! ## Reference encoders

Companion encoders used to state round-trip properties about valid
encodings.  They produce canonical unsigned LEB128 integers and the
byte shapes the decoders above consume. -/

/-- Canonical LEB128 encoding loop with a fuel of 5 bytes (enough for
every value below `2 ^ 35`). -/
def encU32Loop : Nat → Nat → Stream
  | 0, n => [n % 128]
  | fuel + 1, n => if n < 128 then [n] else (n % 128 + 128) :: encU32Loop fuel (n / 128)

/-- Canonical unsigned LEB128 encoding of a 32-bit value. -/
def encU32 (n : Nat) : Stream := encU32Loop 5 n

/-- Encoding of a length-prefixed name. -/
def encName (l : Name) : Stream := encU32 l.length ++ l

/-- Encoding of a label: the declared length, then the name (which
carries its own length prefix). -/
def encLabel (l : Name) : Stream := encU32 l.length ++ encName l

/-- The tag byte of each primitive value type, per the source table. -/
def tagOfPrim : PrimValType → Nat
  | .Bool => 0x7f
  | .S8 => 0x7e
  | .U8 => 0x7d
  | .S16 => 0x7c
  | .U16 => 0x7b
  | .S32 => 0x7a
  | .U32 => 0x79
  | .S64 => 0x78
  | .U64 => 0x77
  | .Float32 => 0x76
  | .Float64 => 0x75
  | .Char => 0x74
  | .String => 0x73

/-- Encoding of a value type: the primitive tag, or the bare index. -/
def encValueType : ValueType → Stream
  | .primitive p => [tagOfPrim p]
  | .typeIndex i => [i]

/-- Encoding of a labelled value type. -/
def encLabelValType (lv : LabelValType) : Stream :=
  encLabel lv.label ++ encValueType lv.valType

/-- Encoding of a vector: the count, then the element encodings. -/
def encVec {α : Type} (enc : α → Stream) (xs : List α) : Stream :=
  encU32 xs.length ++ (xs.map enc).flatten

/-- Encoding of a record body: the field vector. -/
def encRecord (fields : List LabelValType) : Stream :=
  encVec encLabelValType fields

/-- A value type the reference encoder can represent: a type index must
be a byte outside the reserved primitive tag range. -/
def wfValueType : ValueType → Bool
  | .primitive _ => true
  | .typeIndex i => decide (i < 256 ∧ ¬(0x73 ≤ i ∧ i ≤ 0x7f))

/-- A labelled value type the reference encoder can represent. -/
def wfLabelValType (lv : LabelValType) : Bool :=
  decide (lv.label.length < 2 ^ 32) && wfValueType lv.valType

/-- A field list the reference encoder can represent. -/
def wfFields (fs : List LabelValType) : Bool :=
  decide (fs.length < 2 ^ 32) && fs.all wfLabelValType

/-! ## Round-trip lemmas -/

theorem readU32Loop_encU32Loop (fuel : Nat) :
    ∀ n shift acc rest, n < 2 ^ (7 * (fuel + 1)) → acc + n * 2 ^ shift < 2 ^ 32 →
      readU32Loop (fuel + 1) shift acc (encU32Loop (fuel + 1) n ++ rest)
        = (.ok (acc + n * 2 ^ shift), rest) := by
  induction fuel with
  | zero =>
    intro n shift acc rest hn hacc
    have hn128 : n < 128 := by simpa using hn
    simp only [encU32Loop, if_pos hn128, List.cons_append, List.nil_append, readU32Loop]
    rw [Nat.mod_eq_of_lt hn128, if_pos hacc]
  | succ fuel ih =>
    intro n shift acc rest hn hacc
    by_cases hn128 : n < 128
    · simp only [encU32Loop, if_pos hn128, List.cons_append, List.nil_append, readU32Loop]
      rw [Nat.mod_eq_of_lt hn128, if_pos hacc]
    · have hb : ¬ (n % 128 + 128 < 128) := by omega
      have hmod : (n % 128 + 128) % 128 = n % 128 := by omega
      have key : acc + n % 128 * 2 ^ shift + n / 128 * 2 ^ (shift + 7)
          = acc + n * 2 ^ shift := by
        have h7 : (2 : Nat) ^ (shift + 7) = 2 ^ shift * 128 := by
          rw [pow_add]; norm_num
        rw [h7]
        calc acc + n % 128 * 2 ^ shift + n / 128 * (2 ^ shift * 128)
            = acc + (n % 128 + n / 128 * 128) * 2 ^ shift := by ring
          _ = acc + n * 2 ^ shift := by rw [Nat.mod_add_div']
      have hlt : n / 128 < 2 ^ (7 * (fuel + 1)) := by
        rw [Nat.div_lt_iff_lt_mul (by norm_num : (0 : Nat) < 128)]
        calc n < 2 ^ (7 * (fuel + 1 + 1)) := hn
          _ = 2 ^ (7 * (fuel + 1)) * 128 := by
            rw [show 7 * (fuel + 1 + 1) = 7 * (fuel + 1) + 7 by ring, pow_add]; norm_num
      have hbound : acc + n % 128 * 2 ^ shift + n / 128 * 2 ^ (shift + 7) < 2 ^ 32 := by
        rw [key]; exact hacc
      have ih2 := ih (n / 128) (shift + 7) (acc + n % 128 * 2 ^ shift) rest hlt hbound
      have henc : encU32Loop (fuel + 1 + 1) n
          = (n % 128 + 128) :: encU32Loop (fuel + 1) (n / 128) := by
        conv_lhs => rw [encU32Loop]
        rw [if_neg hn128]
      rw [henc, List.cons_append]
      simp only [readU32Loop]
      rw [if_neg hb, hmod, ih2, key]

theorem readU32_encU32 (n : Nat) (rest : Stream) (h : n < 2 ^ 32) :
    readU32 (encU32 n ++ rest) = (.ok n, rest) := by
  have h35 : n < 2 ^ (7 * (4 + 1)) := lt_of_lt_of_le h (by norm_num)
  have h0 : 0 + n * 2 ^ 0 < 2 ^ 32 := by simpa using h
  have hres := readU32Loop_encU32Loop 4 n 0 0 rest h35 h0
  simpa [readU32, encU32] using hres

theorem takeExact_append (xs : Stream) :
    ∀ rest, takeExact xs.length (xs ++ rest) = (.ok xs, rest) := by
  induction xs with
  | nil => intro rest; rfl
  | cons b tail ih =>
    intro rest
    have h1 : takeExact (b :: tail).length ((b :: tail) ++ rest)
        = match takeExact tail.length (tail ++ rest) with
          | (.ok xs, bs2) => (.ok (b :: xs), bs2)
          | (.error e, bs2) => (.error e, bs2) := rfl
    rw [h1, ih]

theorem readName_enc (l : Name) (rest : Stream) (h : l.length < 2 ^ 32) :
    readName (encName l ++ rest) = (.ok l, rest) := by
  simp only [readName, encName, List.append_assoc, readU32_encU32 _ _ h,
    takeExact_append]

theorem loadLabel_enc (l : Name) (rest : Stream) (h : l.length < 2 ^ 32) :
    loadLabel (encLabel l ++ rest) = (.ok l, rest) := by
  simp only [loadLabel, encLabel, List.append_assoc, readU32_encU32 _ _ h,
    readName_enc l rest h]
  simp

theorem primValTypeOfTag_eq_none (i : Nat) (h : ¬(0x73 ≤ i ∧ i ≤ 0x7f)) :
    primValTypeOfTag i = none := by
  unfold primValTypeOfTag
  repeat rw [if_neg (by omega)]

theorem loadValueType_enc (v : ValueType) (rest : Stream) (h : wfValueType v = true) :
    loadValueType (encValueType v ++ rest) = (.ok v, rest) := by
  cases v with
  | primitive p => cases p <;> rfl
  | typeIndex i =>
    simp only [wfValueType, decide_eq_true_eq] at h
    simp only [encValueType, List.cons_append, List.nil_append, loadValueType, readByte,
      primValTypeOfTag_eq_none i h.2]

theorem loadLabelValType_enc (lv : LabelValType) (rest : Stream)
    (h : wfLabelValType lv = true) :
    loadLabelValType (encLabelValType lv ++ rest) = (.ok lv, rest) := by
  simp only [wfLabelValType, Bool.and_eq_true, decide_eq_true_eq] at h
  simp only [loadLabelValType, encLabelValType, List.append_assoc,
    loadLabel_enc lv.label _ h.1, loadValueType_enc lv.valType rest h.2]

theorem loadVecN_enc {α : Type} (load : Stream → DecRes α) (enc : α → Stream)
    (xs : List α) : ∀ rest, (∀ x ∈ xs, ∀ r, load (enc x ++ r) = (.ok x, r)) →
    loadVecN load xs.length ((xs.map enc).flatten ++ rest) = (.ok xs, rest) := by
  induction xs with
  | nil => intro rest _; rfl
  | cons x tail ih =>
    intro rest h
    simp only [List.map_cons, List.flatten_cons, List.length_cons, List.append_assoc]
    simp only [loadVecN, h x (by simp) _, ih rest (fun y hy r => h y (by simp [hy]) r)]

theorem loadVec_enc {α : Type} (load : Stream → DecRes α) (enc : α → Stream)
    (xs : List α) (rest : Stream) (hlen : xs.length < 2 ^ 32)
    (h : ∀ x ∈ xs, ∀ r, load (enc x ++ r) = (.ok x, r)) :
    loadVec load (encVec enc xs ++ rest) = (.ok xs, rest) := by
  simp only [loadVec, encVec, List.append_assoc, readU32_encU32 _ _ hlen,
    loadVecN_enc load enc xs rest h]

/-! ## Claim theorems -/

/-- C1: For every valid encoding of a record with N ≥ 1 fields, decoding
the record produces exactly those N LabelValType entries in the order
they occur in the byte stream; and for every encoding whose field vector
decodes successfully but is empty, decoding fails with
`MalformedRecordType`. -/
theorem loadRecord_C1 :
    (∀ fields rest, wfFields fields = true → fields ≠ [] →
      loadRecord (encRecord fields ++ rest) = (.ok ⟨fields⟩, rest))
    ∧ (∀ bs bs1, loadVec loadLabelValType bs = (.ok [], bs1) →
      loadRecord bs = (.error .MalformedRecordType, bs1)) := by
  constructor
  · intro fields rest hwf hne
    simp only [wfFields, Bool.and_eq_true, decide_eq_true_eq, List.all_eq_true] at hwf
    have hvec : loadVec loadLabelValType (encVec encLabelValType fields ++ rest)
        = (.ok fields, rest) :=
      loadVec_enc _ _ fields rest hwf.1 (fun x hx r => loadLabelValType_enc x r (hwf.2 x hx))
    simp only [loadRecord, encRecord, hvec]
    rw [if_pos (by simpa using List.length_pos.mpr hne)]
  · intro bs bs1 h
    simp [loadRecord, h]

/-- Witness for C1: a one-field record and an empty record body. -/
theorem loadRecord_C1_witness :
    (wfFields [⟨[0x61], .primitive .Bool⟩] = true ∧
      ([⟨[0x61], .primitive .Bool⟩] : List LabelValType) ≠ [] ∧
      loadRecord (encRecord [⟨[0x61], .primitive .Bool⟩] ++ [0x99])
        = (.ok ⟨[⟨[0x61], .primitive .Bool⟩]⟩, [0x99]))
    ∧ (loadVec loadLabelValType [0x00] = (.ok [], []) ∧
      loadRecord [0x00] = (.error .MalformedRecordType, [])) :=
  ⟨⟨by decide, by decide, loadRecord_C1.1 _ _ (by decide) (by decide)⟩,
    ⟨rfl, loadRecord_C1.2 [0x00] [] rfl⟩⟩

/-- C2: every tag byte in 0x73–0x7f decodes to the corresponding
primitive value type per the table; every other tag byte decodes to a
TypeIndex equal to the tag byte; in both cases exactly one byte is
consumed. -/
theorem loadValueType_C2 :
    (∀ b bs, b < 256 → ¬(0x73 ≤ b ∧ b ≤ 0x7f) →
      loadValueType (b :: bs) = (.ok (.typeIndex b), bs))
    ∧ (∀ bs,
      loadValueType (0x73 :: bs) = (.ok (.primitive .String), bs) ∧
      loadValueType (0x74 :: bs) = (.ok (.primitive .Char), bs) ∧
      loadValueType (0x75 :: bs) = (.ok (.primitive .Float64), bs) ∧
      loadValueType (0x76 :: bs) = (.ok (.primitive .Float32), bs) ∧
      loadValueType (0x77 :: bs) = (.ok (.primitive .U64), bs) ∧
      loadValueType (0x78 :: bs) = (.ok (.primitive .S64), bs) ∧
      loadValueType (0x79 :: bs) = (.ok (.primitive .U32), bs) ∧
      loadValueType (0x7a :: bs) = (.ok (.primitive .S32), bs) ∧
      loadValueType (0x7b :: bs) = (.ok (.primitive .U16), bs) ∧
      loadValueType (0x7c :: bs) = (.ok (.primitive .S16), bs) ∧
      loadValueType (0x7d :: bs) = (.ok (.primitive .U8), bs) ∧
      loadValueType (0x7e :: bs) = (.ok (.primitive .S8), bs) ∧
      loadValueType (0x7f :: bs) = (.ok (.primitive .Bool), bs)) := by
  constructor
  · intro b bs hb hrange
    simp only [loadValueType, readByte, primValTypeOfTag_eq_none b hrange]
  · intro bs
    exact ⟨rfl, rfl, rfl, rfl, rfl, rfl, rfl, rfl, rfl, rfl, rfl, rfl, rfl⟩

/-- Witness for C2: tag 0x42 decodes to TypeIndex 0x42. -/
theorem loadValueType_C2_witness :
    (0x42 < 256 ∧ ¬(0x73 ≤ 0x42 ∧ (0x42 : Nat) ≤ 0x7f)) ∧
      loadValueType [0x42, 0x7f] = (.ok (.typeIndex 0x42), [0x7f]) :=
  ⟨by decide, loadValueType_C2.1 0x42 [0x7f] (by decide) (by decide)⟩

/-- C3: once the label and the optional value type of a Case decode
successfully, a trailing terminator whose decoded value is nonzero (so
in particular every decoded value 0x01–0xFF) makes the Case decode fail
with `MalformedVariantType`. -/
theorem loadCase_C3 :
    ∀ bs l bs1 ov bs2 v bs3, loadLabel bs = (.ok l, bs1) →
      loadOption loadValueType bs1 = (.ok ov, bs2) →
      readU32 bs2 = (.ok v, bs3) → v ≠ 0x00 →
      loadCase bs = (.error .MalformedVariantType, bs3) := by
  intro bs l bs1 ov bs2 v bs3 h1 h2 h3 hv
  simp only [loadCase, h1, h2, h3]
  rw [if_pos hv]

/-- Witness for C3: an empty label, an absent payload, terminator 5. -/
theorem loadCase_C3_witness :
    loadLabel [0x00, 0x00, 0x00, 0x05] = (.ok [], [0x00, 0x05]) ∧
    loadOption loadValueType [0x00, 0x05] = (.ok none, [0x05]) ∧
    readU32 [0x05] = (.ok 5, []) ∧ (5 : Nat) ≠ 0 ∧
    loadCase [0x00, 0x00, 0x00, 0x05] = (.error .MalformedVariantType, []) :=
  ⟨rfl, rfl, rfl, by decide, loadCase_C3 _ _ _ _ _ _ _ rfl rfl rfl (by decide)⟩

/-- C4: on a successfully decoded element vector, Tuple fails with
`MalformedTupleType` when it is empty, Flags fails with
`MalformedFlagsType` when it is empty, and Enum succeeds even when it is
empty. -/
theorem emptyVec_C4 :
    (∀ bs bs1, loadVec loadValueType bs = (.ok [], bs1) →
      loadTuple bs = (.error .MalformedTupleType, bs1))
    ∧ (∀ bs bs1, loadVec loadLabel bs = (.ok [], bs1) →
      loadFlags bs = (.error .MalformedFlagsType, bs1))
    ∧ (∀ bs bs1, loadVec loadLabel bs = (.ok [], bs1) →
      loadEnum bs = (.ok ⟨[]⟩, bs1)) := by
  refine ⟨?_, ?_, ?_⟩ <;> intro bs bs1 h <;> simp [loadTuple, loadFlags, loadEnum, h]

/-- Witness for C4: the zero-count vector encoding `[0x00]`. -/
theorem emptyVec_C4_witness :
    (loadVec loadValueType [0x00] = (.ok [], []) ∧
      loadTuple [0x00] = (.error .MalformedTupleType, [])) ∧
    (loadVec loadLabel [0x00] = (.ok [], []) ∧
      loadFlags [0x00] = (.error .MalformedFlagsType, [])) ∧
    (loadVec loadLabel [0x00] = (.ok [], []) ∧
      loadEnum [0x00] = (.ok ⟨[]⟩, [])) :=
  ⟨⟨rfl, emptyVec_C4.1 _ _ rfl⟩, ⟨rfl, emptyVec_C4.2.1 _ _ rfl⟩,
    ⟨rfl, emptyVec_C4.2.2 _ _ rfl⟩⟩

/-- C5: the function type decoder decodes a LabelValType parameter
vector then a ResultList; ResultList discriminant 0x00 yields one
ValueType, 0x01 a named LabelValType vector, and any other discriminant
byte fails with `MalformedDefType`; an empty parameter vector followed
by `0x00` and a primitive tag decodes to empty params and a single
primitive result. -/
theorem loadFuncType_C5 :
    (∀ bs ps bs1 rl bs2, loadVec loadLabelValType bs = (.ok ps, bs1) →
      loadResultList bs1 = (.ok rl, bs2) →
      loadFuncType bs = (.ok ⟨ps, rl⟩, bs2))
    ∧ (∀ bs v bs1, loadValueType bs = (.ok v, bs1) →
      loadResultList (0x00 :: bs) = (.ok (.single v), bs1))
    ∧ (∀ bs rs bs1, loadVec loadLabelValType bs = (.ok rs, bs1) →
      loadResultList (0x01 :: bs) = (.ok (.named rs), bs1))
    ∧ (∀ t, t < 256 → t ≠ 0x00 → t ≠ 0x01 → ∀ bs,
      loadResultList (t :: bs) = (.error .MalformedDefType, bs))
    ∧ (∀ p rest, loadFuncType (0x00 :: 0x00 :: tagOfPrim p :: rest)
        = (.ok ⟨[], .single (.primitive p)⟩, rest)) := by
  refine ⟨?_, ?_, ?_, ?_, ?_⟩
  · intro bs ps bs1 rl bs2 h1 h2
    simp only [loadFuncType, h1, h2]
  · intro bs v bs1 h
    simp [loadResultList, readByte, h]
  · intro bs rs bs1 h
    simp [loadResultList, readByte, h]
  · intro t hlt h0 h1 bs
    simp only [loadResultList, readByte]
    rw [if_neg h0, if_neg h1]
  · intro p rest
    cases p <;> rfl

/-- Witness for C5: the empty-params single-bool function type, a named
result list, and the bad discriminant 0x02. -/
theorem loadFuncType_C5_witness :
    (loadVec loadLabelValType [0x00, 0x00, 0x7f] = (.ok [], [0x00, 0x7f]) ∧
      loadResultList [0x00, 0x7f] = (.ok (.single (.primitive .Bool)), []) ∧
      loadFuncType [0x00, 0x00, 0x7f] = (.ok ⟨[], .single (.primitive .Bool)⟩, [])) ∧
    (loadValueType [0x7f] = (.ok (.primitive .Bool), []) ∧
      loadResultList [0x00, 0x7f] = (.ok (.single (.primitive .Bool)), [])) ∧
    (loadVec loadLabelValType [0x00] = (.ok [], []) ∧
      loadResultList [0x01, 0x00] = (.ok (.named []), [])) ∧
    (0x02 < 256 ∧ (0x02 : Nat) ≠ 0x00 ∧ (0x02 : Nat) ≠ 0x01 ∧
      loadResultList [0x02, 0x7f] = (.error .MalformedDefType, [0x7f])) := by
  refine ⟨⟨rfl, rfl, loadFuncType_C5.1 _ _ _ _ _ rfl rfl⟩,
    ⟨rfl, loadFuncType_C5.2.1 _ _ _ rfl⟩,
    ⟨rfl, loadFuncType_C5.2.2.1 _ _ _ rfl⟩,
    by decide, by decide, by decide,
    loadFuncType_C5.2.2.2.1 0x02 (by decide) (by decide) (by decide) [0x7f]⟩

/-- C6: every leading tag byte that is not one of the 13 primitive tags,
the 10 composite tags, or 0x40/0x41/0x42 makes the definition type
dispatcher fail with `MalformedDefType`. -/
theorem loadDefType_C6 :
    ∀ t, t < 256 → ¬(0x73 ≤ t ∧ t ≤ 0x7f) →
      t ∉ ([0x72, 0x71, 0x70, 0x6f, 0x6e, 0x6d, 0x6b, 0x6a, 0x69, 0x68,
        0x40, 0x41, 0x42] : List Nat) →
      ∀ bs, loadDefType (t :: bs) = (.error .MalformedDefType, bs) := by
  intro t hlt hprim hmem bs
  simp only [List.mem_cons, List.not_mem_nil, or_false, not_or] at hmem
  simp only [loadDefType, readByte, primValTypeOfTag_eq_none t hprim]
  obtain ⟨h72, h71, h70, h6f, h6e, h6d, h6b, h6a, h69, h68, h40, h41, h42⟩ := hmem
  rw [if_neg h72, if_neg h71, if_neg h70, if_neg h6f, if_neg h6e, if_neg h6d,
    if_neg h6b, if_neg h6a, if_neg h69, if_neg h68, if_neg h40, if_neg h41, if_neg h42]

/-- Witness for C6: tag 0x43 is rejected. -/
theorem loadDefType_C6_witness :
    (0x43 < 256 ∧ ¬(0x73 ≤ 0x43 ∧ (0x43 : Nat) ≤ 0x7f) ∧
      (0x43 : Nat) ∉ ([0x72, 0x71, 0x70, 0x6f, 0x6e, 0x6d, 0x6b, 0x6a, 0x69, 0x68,
        0x40, 0x41, 0x42] : List Nat)) ∧
    loadDefType [0x43, 0x7f] = (.error .MalformedDefType, [0x7f]) :=
  ⟨⟨by decide, by decide, by decide⟩,
    loadDefType_C6 0x43 (by decide) (by decide) (by decide) [0x7f]⟩

/-- C7: the InstanceDecl discriminant 0x00 always fails with
`MalformedDefType` regardless of the following bytes, and every
discriminant byte outside 0x00/0x01/0x02/0x04 also fails with
`MalformedDefType`. -/
theorem loadInstanceDecl_C7 :
    (∀ bs, loadInstanceDecl (0x00 :: bs) = (.error .MalformedDefType, bs))
    ∧ (∀ t, t < 256 → t ∉ ([0x00, 0x01, 0x02, 0x04] : List Nat) →
      ∀ bs, loadInstanceDecl (t :: bs) = (.error .MalformedDefType, bs)) := by
  constructor
  · intro bs; rfl
  · intro t hlt hmem bs
    simp only [List.mem_cons, List.not_mem_nil, or_false, not_or] at hmem
    obtain ⟨h0, h1, h2, h4⟩ := hmem
    simp only [loadInstanceDecl, readByte]
    rw [if_neg h0, if_neg h1, if_neg h2, if_neg h4]

/-- Witness for C7: discriminant 0x03 (the component-import tag, not an
instance-declaration tag) is rejected. -/
theorem loadInstanceDecl_C7_witness :
    (0x03 < 256 ∧ (0x03 : Nat) ∉ ([0x00, 0x01, 0x02, 0x04] : List Nat)) ∧
    loadInstanceDecl [0x03, 0xaa] = (.error .MalformedDefType, [0xaa]) :=
  ⟨⟨by decide, by decide⟩, loadInstanceDecl_C7.2 0x03 (by decide) (by decide) [0xaa]⟩

/-- C8: on discriminant 0x01 the source dereferences the
default-constructed (null) `std::shared_ptr<Type>` by evaluating
`T->getType()` before anything is allocated; the embedding records this
as a `NullDereference` before any further byte is consumed, refuting the
claimed safety of the shared-type branch. -/
theorem loadInstanceDecl_C8_nullDeref :
    loadInstanceDecl [0x01, 0x7f] = (.error .NullDereference, [0x7f]) := rfl

/-- C9 counterexample: an input crafted to nest instance types five
levels deep does not fail with any dedicated depth-exceeded error (the
decoder's error set has none): exactly like the singly-nested input, it
fails at the first shared-type declaration with `NullDereference`, so no
depth-dependent dedicated failure exists. -/
theorem loadDefType_C9_counterexample :
    loadDefType [0x42, 0x01, 0x01, 0x42, 0x01, 0x01, 0x42, 0x01, 0x01,
        0x42, 0x01, 0x01, 0x42, 0x01, 0x01, 0x7f]
      = (.error .NullDereference, [0x42, 0x01, 0x01, 0x42, 0x01, 0x01,
        0x42, 0x01, 0x01, 0x42, 0x01, 0x01, 0x7f]) ∧
    loadDefType [0x42, 0x01, 0x01, 0x7f] = (.error .NullDereference, [0x7f]) :=
  ⟨rfl, rfl⟩

/-- C9 amended: the decoder has no configured maximum nesting depth and
no depth-exceeded error code; every input that tries to nest a type
definition through an instance-type shared-type declaration fails at the
first nesting step with the `NullDereference` defect, whatever follows,
so the same error appears at every depth. -/
theorem loadDefType_C9_amended :
    ∀ bs, loadDefType (0x42 :: 0x01 :: 0x01 :: bs) = (.error .NullDereference, bs) := by
  intro bs; rfl

/-- C10: the CoreDefType decoder first attempts a core function type; on
success that alternative is kept; on failure it attempts a module type
from the exact position where the failed function-type attempt stopped
(no rewind), and if that also fails the returned error is the module
attempt's error. -/
theorem loadCoreDefType_C10 :
    (∀ bs f bs1, loadFunctionType bs = (.ok f, bs1) →
      loadCoreDefType bs = (.ok (.functionType f), bs1))
    ∧ (∀ bs e1 bs1 m bs2, loadFunctionType bs = (.error e1, bs1) →
      loadModuleType bs1 = (.ok m, bs2) →
      loadCoreDefType bs = (.ok (.moduleType m), bs2))
    ∧ (∀ bs e1 bs1 e2 bs2, loadFunctionType bs = (.error e1, bs1) →
      loadModuleType bs1 = (.error e2, bs2) →
      loadCoreDefType bs = (.error e2, bs2)) := by
  refine ⟨?_, ?_, ?_⟩
  · intro bs f bs1 h
    simp only [loadCoreDefType, h]
  · intro bs e1 bs1 m bs2 h1 h2
    simp only [loadCoreDefType, h1, h2]
  · intro bs e1 bs1 e2 bs2 h1 h2
    simp only [loadCoreDefType, h1, h2]

/-- Witness for C10: a function-type attempt that consumes the marker
and then fails mid-vector hands the rest of the stream to the module
attempt; a bad marker followed by a valid module body succeeds as a
module type; a complete core function type succeeds directly. -/
theorem loadCoreDefType_C10_witness :
    (loadFunctionType [0x60, 0x80] = (.error .UnexpectedEnd, []) ∧
      loadModuleType [] = (.error .UnexpectedEnd, []) ∧
      loadCoreDefType [0x60, 0x80] = (.error .UnexpectedEnd, [])) ∧
    (loadFunctionType [0x50, 0x00] = (.error .UnexpectedByte, [0x50, 0x00]) ∧
      loadModuleType [0x50, 0x00] = (.ok (.mk []), []) ∧
      loadCoreDefType [0x50, 0x00] = (.ok (.moduleType (.mk [])), [])) ∧
    (loadFunctionType [0x60, 0x00, 0x00] = (.ok ⟨[], []⟩, []) ∧
      loadCoreDefType [0x60, 0x00, 0x00] = (.ok (.functionType ⟨[], []⟩), [])) :=
  ⟨⟨rfl, rfl, loadCoreDefType_C10.2.2 _ _ _ _ _ rfl rfl⟩,
    ⟨rfl, rfl, loadCoreDefType_C10.2.1 _ _ _ _ _ rfl rfl⟩,
    ⟨rfl, loadCoreDefType_C10.1 _ _ _ rfl⟩⟩

end WasmEdge.Loader
